import Mathlib

/-!
Verification of the Pro Tools Smart Light controller
(`recording_lights_controller.py`).

The development shallowly embeds the event-driven state machine of
`MidiHandler` (session flags, debounce scheduler), the device roster and
discovery matching of `DeviceManager`, the actuation fan-out
(`control_all_devices` / `_control_single_device`), the configuration
validation of `Configuration._validate_config`, and the event-monitoring
loop `monitor_midi`.  Asynchronous time is modelled by explicit tick
steps: an armed debounce task carries the number of ticks remaining until
it fires; cancelling a task removes it from the armed set, so a cancelled
task never runs its body (as in asyncio, where cancellation interrupts
the `asyncio.sleep`).
-/

namespace RecordingLights

/-- Embeds `MidiConfig` (dataclass): MIDI configuration settings.
`debounce_time` is measured in abstract ticks. -/
structure MidiConfig where
  port_name : String
  cc_play : Nat
  cc_record : Nat
  debounce_time : Nat
deriving Repr, DecidableEq

/-- The mutable state of `MidiHandler` together with the state of the
asyncio loop's delayed tasks.  `armed` lists the debounce tasks that have
been created and neither cancelled nor fired, as
`(task id, lights_on target, ticks remaining)`; `scheduled_task` is the
handle stored in `self.scheduled_task` (it may point to a task that
already fired or was cancelled, exactly as the Python attribute may hold
a completed task object). -/
structure MidiState where
  playing : Bool := false
  record_enabled : Bool := false
  nextId : Nat := 0
  armed : List (Nat × Bool × Nat) := []
  scheduled_task : Option Nat := none
deriving Repr, DecidableEq

/-- The initial `MidiHandler` state (`__init__`): both flags false, no
scheduled task. -/
def initialMidiState : MidiState := {}

/-- Embeds `MidiHandler._schedule_debounced_light_change`: cancel the
task referenced by `self.scheduled_task` (a no-op when that task already
fired or was cancelled, i.e. is no longer armed), then create a fresh
task carrying `lights_on`, due after `debounce` ticks, and store its
handle. -/
def scheduleDebounced (debounce : Nat) (s : MidiState) (lights_on : Bool) : MidiState :=
  let armed1 := match s.scheduled_task with
    | some h => s.armed.filter (fun p => p.1 ≠ h)
    | none => s.armed
  { s with
    armed := armed1 ++ [(s.nextId, lights_on, debounce)]
    scheduled_task := some s.nextId
    nextId := s.nextId + 1 }

/-- Embeds `MidiHandler._on_play_changed`: update `playing` from the
MIDI value, and submit the new `playing` value to the debounce scheduler
only when `record_enabled` holds.  Returns the updated state and the
list of targets submitted to the scheduler by this call. -/
def onPlayChanged (debounce : Nat) (s : MidiState) (midi_value : Nat) :
    MidiState × List Bool :=
  let s1 := { s with playing := midi_value > 0 }
  if s1.record_enabled then
    (scheduleDebounced debounce s1 s1.playing, [s1.playing])
  else
    (s1, [])

/-- Embeds `MidiHandler._on_record_changed`: update `record_enabled`
from the MIDI value, and submit the new `record_enabled` value to the
debounce scheduler only when `playing` holds (when not playing and newly
armed, only a log line is produced). -/
def onRecordChanged (debounce : Nat) (s : MidiState) (midi_value : Nat) :
    MidiState × List Bool :=
  let s1 := { s with record_enabled := midi_value > 0 }
  if s1.playing then
    (scheduleDebounced debounce s1 s1.record_enabled, [s1.record_enabled])
  else
    (s1, [])

/-- Embeds `MidiHandler._process_midi_message`: ignore messages shorter
than 3 bytes, ignore status bytes other than 176 (0xB0), and dispatch on
the control number through `cc_action_map`.  The dict literal
`{cc_record: _on_record_changed, cc_play: _on_play_changed}` lets a
later duplicate key win, so when `cc_play = cc_record` the play handler
is the one mapped. -/
def processMidiMessage (cfg : MidiConfig) (s : MidiState) (message : List Nat) :
    MidiState × List Bool :=
  match message with
  | status :: cc_number :: value :: _ =>
    if status ≠ 176 then (s, [])
    else if cc_number = cfg.cc_play then onPlayChanged cfg.debounce_time s value
    else if cc_number = cfg.cc_record then onRecordChanged cfg.debounce_time s value
    else (s, [])
  | _ => (s, [])

/-- One tick of the asyncio clock: every armed task's remaining delay
decreases by one; a task whose delay runs out fires, i.e. its body
`_debounced_light_change` resumes after `asyncio.sleep` and invokes
`control_all_devices` with its carried target.  Returns the fan-out
targets fired during this tick. -/
def tickState (s : MidiState) : MidiState × List Bool :=
  let fired := s.armed.filter (fun p => p.2.2 ≤ 1)
  let still := s.armed.filter (fun p => ¬ p.2.2 ≤ 1)
  ({ s with armed := still.map (fun p => (p.1, p.2.1, p.2.2 - 1)) },
   fired.map (fun p => p.2.1))

/-- Let `n` ticks elapse, collecting the fan-out targets fired. -/
def elapse (s : MidiState) : Nat → MidiState × List Bool
  | 0 => (s, [])
  | n + 1 =>
    let r1 := tickState s
    let r2 := elapse r1.1 n
    (r2.1, r1.2 ++ r2.2)

/-- An input to the event-processing flow: either a MIDI message is
processed, or one tick of time elapses (the reading loop's sleep). -/
inductive Ev where
  | midi (message : List Nat)
  | tick
deriving Repr, DecidableEq

/-- Run the handler over a list of events from a given state, collecting
the fan-out targets fired by the debounce tasks. -/
def runEvents (cfg : MidiConfig) (s : MidiState) : List Ev → MidiState × List Bool
  | [] => (s, [])
  | Ev.midi m :: rest =>
    let r1 := processMidiMessage cfg s m
    runEvents cfg r1.1 rest
  | Ev.tick :: rest =>
    let r1 := tickState s
    let r2 := runEvents cfg r1.1 rest
    (r2.1, r1.2 ++ r2.2)

/-- The single-owner discipline on the pending actuation: every armed
task is the one referenced by `scheduled_task`, armed task ids are below
the id counter, and at most one task is armed. -/
def SchedInv (s : MidiState) : Prop :=
  s.armed.length ≤ 1 ∧
  (∀ p ∈ s.armed, s.scheduled_task = some p.1) ∧
  (∀ h, s.scheduled_task = some h → h < s.nextId)

theorem schedInv_initial : SchedInv initialMidiState := by
  refine ⟨by simp [initialMidiState], by simp [initialMidiState], ?_⟩
  intro h hh
  simp [initialMidiState] at hh

theorem scheduleDebounced_armed (debounce : Nat) (s : MidiState) (t : Bool)
    (hs : SchedInv s) :
    (scheduleDebounced debounce s t).armed = [(s.nextId, t, debounce)] := by
  obtain ⟨hlen, hcover, _⟩ := hs
  unfold scheduleDebounced
  rcases harm : s.armed with _ | ⟨p, rest⟩
  · cases hst : s.scheduled_task <;> simp [hst, harm]
  · have hrest : rest = [] := by
      rw [harm] at hlen
      simpa using hlen
    subst hrest
    have hp : s.scheduled_task = some p.1 := hcover p (by rw [harm]; simp)
    simp [hp, harm]

theorem schedInv_schedule (debounce : Nat) (s : MidiState) (t : Bool)
    (hs : SchedInv s) : SchedInv (scheduleDebounced debounce s t) := by
  have harm := scheduleDebounced_armed debounce s t hs
  refine ⟨by rw [harm]; simp, ?_, ?_⟩
  · intro p hp
    rw [harm] at hp
    simp at hp
    simp [scheduleDebounced, hp]
  · intro h hh
    simp only [scheduleDebounced, Option.some.injEq] at hh
    simp only [scheduleDebounced]
    omega

theorem schedInv_tick (s : MidiState) (hs : SchedInv s) :
    SchedInv (tickState s).1 := by
  obtain ⟨hlen, hcover, hfresh⟩ := hs
  refine ⟨?_, ?_, ?_⟩
  · calc (tickState s).1.armed.length
        = (s.armed.filter (fun p => ¬ p.2.2 ≤ 1)).length := by
          simp [tickState]
      _ ≤ s.armed.length := List.length_filter_le _ _
      _ ≤ 1 := hlen
  · intro p hp
    simp only [tickState, List.mem_map, List.mem_filter] at hp
    obtain ⟨q, ⟨hq, _⟩, hpq⟩ := hp
    have := hcover q hq
    simp [tickState, ← hpq, this]
  · intro h hh
    simp only [tickState] at hh
    exact hfresh h hh

theorem schedInv_onPlayChanged (debounce : Nat) (s : MidiState) (v : Nat)
    (hs : SchedInv s) : SchedInv (onPlayChanged debounce s v).1 := by
  unfold onPlayChanged
  dsimp only
  split
  · exact schedInv_schedule debounce _ _ hs
  · exact hs

theorem schedInv_onRecordChanged (debounce : Nat) (s : MidiState) (v : Nat)
    (hs : SchedInv s) : SchedInv (onRecordChanged debounce s v).1 := by
  unfold onRecordChanged
  dsimp only
  split
  · exact schedInv_schedule debounce _ _ hs
  · exact hs

theorem schedInv_process (cfg : MidiConfig) (s : MidiState) (m : List Nat)
    (hs : SchedInv s) : SchedInv (processMidiMessage cfg s m).1 := by
  unfold processMidiMessage
  rcases m with _ | ⟨a, _ | ⟨b, _ | ⟨c, rest⟩⟩⟩ <;> try exact hs
  dsimp only
  split
  · exact hs
  · split
    · exact schedInv_onPlayChanged _ _ _ hs
    · split
      · exact schedInv_onRecordChanged _ _ _ hs
      · exact hs

theorem schedInv_runEvents (cfg : MidiConfig) (evs : List Ev) :
    ∀ s : MidiState, SchedInv s → SchedInv (runEvents cfg s evs).1 := by
  induction evs with
  | nil => intro s hs; exact hs
  | cons e rest ih =>
    intro s hs
    cases e with
    | midi m => exact ih _ (schedInv_process cfg s m hs)
    | tick => exact ih _ (schedInv_tick s hs)

theorem tickState_armed_nil (s : MidiState) (h : s.armed = []) :
    tickState s = (s, []) := by
  cases s with
  | mk playing record_enabled nextId armed scheduled_task =>
    simp only at h
    subst h
    rfl

theorem tickState_single_wait (s : MidiState) (i : Nat) (tgt : Bool) (r : Nat)
    (harm : s.armed = [(i, tgt, r)]) (hr : 2 ≤ r) :
    tickState s = ({ s with armed := [(i, tgt, r - 1)] }, []) := by
  have h1 : ¬ r ≤ 1 := by omega
  have h2 : 1 < r := by omega
  simp [tickState, harm, h1, h2]

theorem tickState_single_fire (s : MidiState) (i : Nat) (tgt : Bool) (r : Nat)
    (harm : s.armed = [(i, tgt, r)]) (hr : r ≤ 1) :
    tickState s = ({ s with armed := [] }, [tgt]) := by
  simp [tickState, harm, hr]

theorem elapse_armed_nil (n : Nat) (s : MidiState) (h : s.armed = []) :
    elapse s n = (s, []) := by
  induction n with
  | zero => rfl
  | succ n ih =>
    simp only [elapse, tickState_armed_nil s h, ih]
    rfl

theorem elapse_single_wait (n : Nat) :
    ∀ (s : MidiState) (i : Nat) (tgt : Bool) (r : Nat),
      s.armed = [(i, tgt, r)] → n < r →
      elapse s n = ({ s with armed := [(i, tgt, r - n)] }, []) := by
  induction n with
  | zero =>
    intro s i tgt r harm _
    cases s with
    | mk playing record_enabled nextId armed scheduled_task =>
      simp only at harm
      subst harm
      rfl
  | succ n ih =>
    intro s i tgt r harm hn
    have hr2 : 2 ≤ r := by omega
    have hstep := tickState_single_wait s i tgt r harm hr2
    have hrec := ih { s with armed := [(i, tgt, r - 1)] } i tgt (r - 1) rfl (by omega)
    have hsub : r - 1 - n = r - (n + 1) := by omega
    simp only [elapse, hstep, hrec, hsub]
    rfl

theorem elapse_single_fire (n : Nat) :
    ∀ (s : MidiState) (i : Nat) (tgt : Bool) (r : Nat),
      s.armed = [(i, tgt, r)] → 1 ≤ r → r ≤ n →
      elapse s n = ({ s with armed := [] }, [tgt]) := by
  induction n with
  | zero =>
    intro s i tgt r _ h1 h2
    omega
  | succ n ih =>
    intro s i tgt r harm h1 hn
    by_cases hr : r ≤ 1
    · have hstep := tickState_single_fire s i tgt r harm hr
      have hrec : elapse ({ s with armed := [] } : MidiState) n
          = ({ s with armed := [] }, []) := elapse_armed_nil n _ rfl
      simp only [elapse, hstep, hrec]
      rfl
    · have hstep := tickState_single_wait s i tgt r harm (by omega)
      have hrec := ih { s with armed := [(i, tgt, r - 1)] } i tgt (r - 1) rfl
        (by omega) (by omega)
      simp only [elapse, hstep, hrec]
      rfl

theorem schedInv_elapse (n : Nat) :
    ∀ s : MidiState, SchedInv s → SchedInv (elapse s n).1 := by
  induction n with
  | zero => intro s hs; exact hs
  | succ n ih =>
    intro s hs
    exact ih _ (schedInv_tick s hs)

/-- A burst of scheduler submissions: for each `(target, gap)` pair,
`_schedule_debounced_light_change target` is called and then `gap` ticks
elapse before the next submission.  Collects the fan-out targets fired
along the way. -/
def runBurst (debounce : Nat) (s : MidiState) : List (Bool × Nat) → MidiState × List Bool
  | [] => (s, [])
  | (t, g) :: rest =>
    let s1 := scheduleDebounced debounce s t
    let r2 := elapse s1 g
    let r3 := runBurst debounce r2.1 rest
    (r3.1, r2.2 ++ r3.2)

theorem runBurst_last (debounce : Nat) (bs : List (Bool × Nat)) :
    ∀ (s : MidiState) (t : Bool) (g : Nat),
      SchedInv s → (∀ p ∈ bs, p.2 < debounce) → g < debounce →
      ∃ i : Nat,
        (runBurst debounce s (bs ++ [(t, g)])).1.armed = [(i, t, debounce - g)] ∧
        (runBurst debounce s (bs ++ [(t, g)])).2 = [] := by
  induction bs with
  | nil =>
    intro s t g hs _ hg
    have harm := scheduleDebounced_armed debounce s t hs
    have hw := elapse_single_wait g (scheduleDebounced debounce s t) s.nextId t
      debounce harm hg
    refine ⟨s.nextId, ?_, ?_⟩ <;> simp [runBurst, hw]
  | cons p rest ih =>
    intro s t g hs hbs hg
    obtain ⟨t', g'⟩ := p
    have hg' : g' < debounce := by
      have := hbs (t', g') (by simp)
      simpa using this
    have harm := scheduleDebounced_armed debounce s t' hs
    have hw := elapse_single_wait g' (scheduleDebounced debounce s t') s.nextId t'
      debounce harm hg'
    have hs2 : SchedInv (elapse (scheduleDebounced debounce s t') g').1 :=
      schedInv_elapse g' _ (schedInv_schedule debounce s t' hs)
    have hrest : ∀ p ∈ rest, p.2 < debounce := by
      intro q hq
      exact hbs q (by simp [hq])
    obtain ⟨i, hi1, hi2⟩ := ih (elapse (scheduleDebounced debounce s t') g').1
      t g hs2 hrest hg
    refine ⟨i, ?_, ?_⟩ <;> simp [runBurst, hw] at hi1 hi2 ⊢ <;> simp [hi1, hi2]

/-- A sample configuration with the documented defaults: control 117 for
play, 118 for record, and the default debounce delay. -/
def sampleConfig : MidiConfig :=
  { port_name := "Pro Tools Recording Lights"
    cc_play := 117
    cc_record := 118
    debounce_time := 250 }

/-- **C1.**  For every control-change event on a configured control
number, after the corresponding session flag is updated: a play change
submits a target to the debounce scheduler exactly when `record_enabled`
holds, a record change submits exactly when `playing` holds, every
submitted target equals `playing && record_enabled` evaluated on the
updated state, and record becoming armed while not playing submits
nothing. -/
theorem cc_submission_decision_rule (cfg : MidiConfig) (s : MidiState) (cc value : Nat)
    (hcc : cc = cfg.cc_play ∨ cc = cfg.cc_record) :
    (∀ t ∈ (processMidiMessage cfg s [176, cc, value]).2,
        t = ((processMidiMessage cfg s [176, cc, value]).1.playing &&
             (processMidiMessage cfg s [176, cc, value]).1.record_enabled)) ∧
    (cc = cfg.cc_play →
      ((processMidiMessage cfg s [176, cc, value]).2 ≠ [] ↔ s.record_enabled = true)) ∧
    (cc ≠ cfg.cc_play →
      ((processMidiMessage cfg s [176, cc, value]).2 ≠ [] ↔ s.playing = true)) ∧
    (cc ≠ cfg.cc_play → s.playing = false →
      (processMidiMessage cfg s [176, cc, value]).2 = []) := by
  by_cases hp : cc = cfg.cc_play
  · by_cases hre : s.record_enabled
    · simp [processMidiMessage, onPlayChanged, scheduleDebounced, hp, hre]
    · simp [processMidiMessage, onPlayChanged, hp, hre]
  · have hr : cc = cfg.cc_record := hcc.resolve_left hp
    subst hr
    by_cases hpl : s.playing
    · simp [processMidiMessage, onRecordChanged, scheduleDebounced, hp, hpl]
    · simp [processMidiMessage, onRecordChanged, hp, hpl]

theorem cc_submission_decision_rule_witness :
    ((118 : Nat) = sampleConfig.cc_play ∨ (118 : Nat) = sampleConfig.cc_record) ∧
    ((∀ t ∈ (processMidiMessage sampleConfig initialMidiState [176, 118, 127]).2,
        t = ((processMidiMessage sampleConfig initialMidiState [176, 118, 127]).1.playing &&
             (processMidiMessage sampleConfig initialMidiState [176, 118, 127]).1.record_enabled)) ∧
    ((118 : Nat) = sampleConfig.cc_play →
      ((processMidiMessage sampleConfig initialMidiState [176, 118, 127]).2 ≠ [] ↔
        initialMidiState.record_enabled = true)) ∧
    ((118 : Nat) ≠ sampleConfig.cc_play →
      ((processMidiMessage sampleConfig initialMidiState [176, 118, 127]).2 ≠ [] ↔
        initialMidiState.playing = true)) ∧
    ((118 : Nat) ≠ sampleConfig.cc_play → initialMidiState.playing = false →
      (processMidiMessage sampleConfig initialMidiState [176, 118, 127]).2 = [])) :=
  ⟨Or.inr (by decide),
   cc_submission_decision_rule sampleConfig initialMidiState 118 127 (Or.inr (by decide))⟩

/-- **C7.**  A message that is shorter than 3 bytes, or whose status
byte is not 176, or whose control number matches neither configured
control, leaves the whole handler state (session flags and pending
actuation) unchanged and submits nothing to the scheduler. -/
theorem non_qualifying_message_frame (cfg : MidiConfig) (s : MidiState)
    (message : List Nat)
    (h : message.length < 3 ∨ message[0]! ≠ 176 ∨
         (message[1]! ≠ cfg.cc_play ∧ message[1]! ≠ cfg.cc_record)) :
    processMidiMessage cfg s message = (s, []) := by
  rcases message with _ | ⟨a, _ | ⟨b, _ | ⟨c, rest⟩⟩⟩
  · rfl
  · rfl
  · rfl
  · rcases h with h | h | h
    · exact absurd h (by simp)
    · simp at h
      simp [processMidiMessage, h]
    · simp at h
      by_cases ha : a = 176
      · simp [processMidiMessage, ha, h.1, h.2]
      · simp [processMidiMessage, ha]

theorem non_qualifying_message_frame_witness :
    (([144, 117, 127] : List Nat).length < 3 ∨ ([144, 117, 127] : List Nat)[0]! ≠ 176 ∨
      (([144, 117, 127] : List Nat)[1]! ≠ sampleConfig.cc_play ∧
       ([144, 117, 127] : List Nat)[1]! ≠ sampleConfig.cc_record)) ∧
    processMidiMessage sampleConfig initialMidiState [144, 117, 127] =
      (initialMidiState, []) :=
  ⟨Or.inr (Or.inl (by decide)),
   non_qualifying_message_frame sampleConfig initialMidiState [144, 117, 127]
     (Or.inr (Or.inl (by decide)))⟩

/-- **C3.**  At most one pending actuation exists at any instant: in
every state reachable by processing events from startup, at most one
debounce task is armed, every armed task is the one referenced by
`scheduled_task`, and a further submission first cancels that
outstanding task, leaving exactly the newly installed one armed. -/
theorem at_most_one_pending_actuation (cfg : MidiConfig) (evs : List Ev)
    (debounce : Nat) (t : Bool) :
    (runEvents cfg initialMidiState evs).1.armed.length ≤ 1 ∧
    (∀ p ∈ (runEvents cfg initialMidiState evs).1.armed,
      (runEvents cfg initialMidiState evs).1.scheduled_task = some p.1) ∧
    (scheduleDebounced debounce (runEvents cfg initialMidiState evs).1 t).armed =
      [((runEvents cfg initialMidiState evs).1.nextId, t, debounce)] := by
  have hinv := schedInv_runEvents cfg evs initialMidiState schedInv_initial
  exact ⟨hinv.1, hinv.2.1, scheduleDebounced_armed debounce _ t hinv⟩

/-- **C5.**  When the debounce delay elapses without the pending task
being superseded, the fan-out is invoked exactly once with the carried
target and afterwards no pending actuation remains armed, over any
horizon of at least the remaining delay. -/
theorem elapsed_task_fires_once_and_clears (s : MidiState) (i : Nat) (tgt : Bool)
    (r n : Nat) (harm : s.armed = [(i, tgt, r)]) (hr : 1 ≤ r) (hn : r ≤ n) :
    (elapse s n).2 = [tgt] ∧ (elapse s n).1.armed = [] := by
  have h := elapse_single_fire n s i tgt r harm hr hn
  rw [h]
  exact ⟨rfl, rfl⟩

def pendingSampleState : MidiState :=
  { playing := true
    record_enabled := true
    nextId := 1
    armed := [(0, true, 250)]
    scheduled_task := some 0 }

theorem elapsed_task_fires_once_and_clears_witness :
    pendingSampleState.armed = [(0, true, 250)] ∧
    (1 : Nat) ≤ 250 ∧ (250 : Nat) ≤ 250 ∧
    ((elapse pendingSampleState 250).2 = [true] ∧
     (elapse pendingSampleState 250).1.armed = []) :=
  ⟨rfl, by decide, by decide,
   elapsed_task_fires_once_and_clears pendingSampleState 0 true 250 250 rfl
     (by decide) (by decide)⟩

/-- **C2.**  A burst of scheduler submissions in which every submission
arrives before the previous delay elapses produces no fan-out call
during the burst (superseded targets are fully suppressed), and once the
delay after the last submission elapses, exactly one fan-out call occurs
and it carries the final settled target. -/
theorem debounce_burst_single_call (debounce : Nat) (s : MidiState)
    (bs : List (Bool × Nat)) (t : Bool) (g : Nat)
    (hs : SchedInv s) (hbs : ∀ p ∈ bs, p.2 < debounce) (hg : g < debounce) :
    (runBurst debounce s (bs ++ [(t, g)])).2 = [] ∧
    (elapse (runBurst debounce s (bs ++ [(t, g)])).1 debounce).2 = [t] := by
  obtain ⟨i, hi1, hi2⟩ := runBurst_last debounce bs s t g hs hbs hg
  refine ⟨hi2, ?_⟩
  have := elapse_single_fire debounce (runBurst debounce s (bs ++ [(t, g)])).1
    i t (debounce - g) hi1 (by omega) (by omega)
  rw [this]

theorem debounce_burst_single_call_witness :
    SchedInv initialMidiState ∧
    (∀ p ∈ ([(true, 1), (false, 1)] : List (Bool × Nat)), p.2 < 3) ∧ (1 : Nat) < 3 ∧
    ((runBurst 3 initialMidiState ([(true, 1), (false, 1)] ++ [(true, 1)])).2 = [] ∧
     (elapse (runBurst 3 initialMidiState ([(true, 1), (false, 1)] ++ [(true, 1)])).1 3).2
        = [true]) :=
  ⟨schedInv_initial, by decide, by decide,
   debounce_burst_single_call 3 initialMidiState [(true, 1), (false, 1)] true 1
     schedInv_initial (by decide) (by decide)⟩

/-- Embeds the `DeviceConfig` dataclass: a roster entry, whose
`ip_address` is populated by the discovery/match step. -/
structure DeviceConfig where
  name : String
  location : String
  device_type : String
  device_id : String
  ip_address : Option String := none
deriving Repr, DecidableEq

/-- The two kasa device classes the controller instantiates. -/
inductive DeviceKind where
  | plug
  | bulb
deriving Repr, DecidableEq

/-- A device instance as created by `_create_device_instance`:
`SmartPlug(ip)` or `SmartBulb(ip)`. -/
structure SmartDevice where
  ip : String
  kind : DeviceKind
deriving Repr, DecidableEq

/-- Models Python's `str.lower()` on ASCII strings. -/
def asciiLowerChar (c : Char) : Char :=
  if 'A' ≤ c ∧ c ≤ 'Z' then Char.ofNat (c.toNat + 32) else c

/-- Models Python's `str.lower()` on ASCII strings. -/
def pyLower (s : String) : String := ⟨s.data.map asciiLowerChar⟩

/-- Embeds `DeviceManager._create_device_instance`: `"socket"` (case
insensitive) yields a plug, `"bulb"` a bulb, and any other kind raises
`ConfigurationError`. -/
def createDeviceInstance (config : DeviceConfig) (ip : String) :
    Except String SmartDevice :=
  if pyLower config.device_type = "socket" then .ok ⟨ip, .plug⟩
  else if pyLower config.device_type = "bulb" then .ok ⟨ip, .bulb⟩
  else .error ("Unknown device type: " ++ config.device_type)

/-- Assignment `d[key] = v` on a Python dict, represented as an
insertion-ordered association list: an existing key keeps its position
and receives the new value, a new key is appended. -/
def dictInsert (m : List (String × SmartDevice)) (k : String) (v : SmartDevice) :
    List (String × SmartDevice) :=
  if m.any (fun p => p.1 = k) then
    m.map (fun p => if p.1 = k then (k, v) else p)
  else m ++ [(k, v)]

/-- `d[key]` lookup on the same representation. -/
def dictFind (m : List (String × SmartDevice)) (k : String) : Option SmartDevice :=
  (m.find? (fun p => p.1 = k)).map Prod.snd

/-- One address→identity pair returned by `Discover.discover()` (after
`device.update()`, which exposes `device_id`). -/
structure Discovered where
  ip : String
  device_id : String
deriving Repr, DecidableEq

/-- The inner `for config in self.device_configs` loop of
`_match_devices`: find the first roster entry whose `device_id` matches,
set its `ip_address`, and return the updated roster together with the
matched (updated) entry. -/
def matchConfig (configs : List DeviceConfig) (dev_id ip : String) :
    List DeviceConfig × Option DeviceConfig :=
  match configs with
  | [] => ([], none)
  | c :: rest =>
    if c.device_id = dev_id then
      ({ c with ip_address := some ip } :: rest,
       some { c with ip_address := some ip })
    else
      let r := matchConfig rest dev_id ip
      (c :: r.1, r.2)

/-- Embeds `DeviceManager._match_devices`: for each discovered device,
match it against the roster; on a match, record the address and store
the created instance in `self.devices` under the entry's name.  A
`ConfigurationError` from `_create_device_instance` propagates. -/
def matchDevices (discovered : List Discovered) (configs : List DeviceConfig)
    (devices : List (String × SmartDevice)) :
    Except String (List DeviceConfig × List (String × SmartDevice)) :=
  match discovered with
  | [] => .ok (configs, devices)
  | d :: rest =>
    let mc := matchConfig configs d.device_id d.ip
    match mc.2 with
    | some c1 =>
      match createDeviceInstance c1 d.ip with
      | .ok dev => matchDevices rest mc.1 (dictInsert devices c1.name dev)
      | .error e => .error e
    | none => matchDevices rest mc.1 devices

/-- Embeds `DeviceManager._log_discovery_results`: the warning lines
name exactly the roster entries that still have no resolved address. -/
def missingDeviceNames (configs : List DeviceConfig) : List String :=
  (configs.filter (fun c => c.ip_address = none)).map (fun c => c.name)

/-- The behavior of the external actuator collaborators: the outcome of
a `turn_on()`/`turn_off()` call on a given address. -/
def RemoteBehavior : Type := String → Bool → Except String Unit

/-- One remote on/off command issued to a device. -/
structure RemoteCall where
  ip : String
  turn_on : Bool
deriving Repr, DecidableEq

/-- The per-device log line produced by `_control_single_device`. -/
inductive LogEntry where
  | success (name : String) (turn_on : Bool)
  | failure (name : String) (turn_on : Bool) (err : String)
deriving Repr, DecidableEq

def LogEntry.deviceName : LogEntry → String
  | .success n _ => n
  | .failure n _ _ => n

/-- Embeds `DeviceManager._control_single_device`: exactly one remote
command is issued to the device; an exception from it is caught inside
the task and logged as a per-device failure, never re-raised. -/
def controlSingleDevice (behavior : RemoteBehavior) (name : String)
    (device : SmartDevice) (turn_on : Bool) : RemoteCall × LogEntry :=
  (⟨device.ip, turn_on⟩,
   match behavior device.ip turn_on with
   | .ok _ => .success name turn_on
   | .error e => .failure name turn_on e)

/-- Embeds `DeviceManager.control_all_devices`: one task per entry of
`self.devices`, gathered with `return_exceptions=True`.  Returns the
remote commands issued and the per-device log entries. -/
def controlAllDevices (behavior : RemoteBehavior)
    (devices : List (String × SmartDevice)) (turn_on : Bool) :
    List RemoteCall × List LogEntry :=
  let results := devices.map (fun p => controlSingleDevice behavior p.1 p.2 turn_on)
  (results.map Prod.fst, results.map Prod.snd)

/-- **C4.**  Fan-out over a roster of N resolved devices issues exactly
one remote command per device — N commands in total, independent of any
failures — and each per-device log entry is a function of that device's
own outcome alone, so a failing device K is logged as a per-device
failure while every other device's command and log are unaffected;
`control_all_devices` always returns a full per-device result list and
never fails as a whole. -/
theorem fanout_per_device_isolation (behavior : RemoteBehavior)
    (devices : List (String × SmartDevice)) (turn_on : Bool) :
    (controlAllDevices behavior devices turn_on).1 =
      devices.map (fun p => ⟨p.2.ip, turn_on⟩) ∧
    (controlAllDevices behavior devices turn_on).1.length = devices.length ∧
    (controlAllDevices behavior devices turn_on).2.length = devices.length ∧
    (∀ k (hk : k < devices.length),
      (controlAllDevices behavior devices turn_on).2[k]? =
        some (match behavior devices[k].2.ip turn_on with
          | .ok _ => LogEntry.success devices[k].1 turn_on
          | .error e => LogEntry.failure devices[k].1 turn_on e)) := by
  refine ⟨?_, ?_, ?_, ?_⟩
  · simp [controlAllDevices, controlSingleDevice]
  · simp [controlAllDevices]
  · simp [controlAllDevices]
  · intro k hk
    simp only [controlAllDevices, List.map_map, List.getElem?_map]
    rw [List.getElem?_eq_getElem hk]
    simp [controlSingleDevice]

/-- A sample resolved roster of three devices. -/
def sampleRoster : List (String × SmartDevice) :=
  [("Recording Light 1", ⟨"10.0.0.1", DeviceKind.plug⟩),
   ("Recording Light 2", ⟨"10.0.0.2", DeviceKind.plug⟩),
   ("Recording Light 3", ⟨"10.0.0.3", DeviceKind.bulb⟩)]

/-- An external world in which the device at `10.0.0.2` is unreachable
and every other device succeeds. -/
def sampleBehavior : RemoteBehavior :=
  fun ip _ => if ip = "10.0.0.2" then .error "unreachable" else .ok ()

theorem fanout_per_device_isolation_witness :
    ((controlAllDevices sampleBehavior sampleRoster true).1 =
      sampleRoster.map (fun p => ⟨p.2.ip, true⟩) ∧
     (controlAllDevices sampleBehavior sampleRoster true).1.length =
       sampleRoster.length ∧
     (controlAllDevices sampleBehavior sampleRoster true).2.length =
       sampleRoster.length ∧
     (∀ k (hk : k < sampleRoster.length),
       (controlAllDevices sampleBehavior sampleRoster true).2[k]? =
         some (match sampleBehavior sampleRoster[k].2.ip true with
           | .ok _ => LogEntry.success sampleRoster[k].1 true
           | .error e => LogEntry.failure sampleRoster[k].1 true e))) ∧
    (1 : Nat) < sampleRoster.length ∧
    (controlAllDevices sampleBehavior sampleRoster true).2[1]? =
      some (LogEntry.failure "Recording Light 2" true "unreachable") :=
  ⟨fanout_per_device_isolation sampleBehavior sampleRoster true,
   by decide,
   by
    have h := (fanout_per_device_isolation sampleBehavior sampleRoster true).2.2.2
      1 (by decide)
    simpa [sampleRoster, sampleBehavior] using h⟩

/-- A raw roster entry as parsed from `config.json`: an
insertion-ordered mapping from field names to string values. -/
structure RawDevice where
  entries : List (String × String)
deriving Repr, DecidableEq

/-- Python's `field in device`. -/
def RawDevice.hasField (d : RawDevice) (f : String) : Bool :=
  d.entries.any (fun p => p.1 = f)

/-- Python's `device[field]` (first binding; empty if absent). -/
def RawDevice.fieldValue (d : RawDevice) (f : String) : String :=
  match d.entries.find? (fun p => p.1 = f) with
  | some p => p.2
  | none => ""

/-- Embeds the per-device field check of
`Configuration._validate_config`: the first of the four required fields
that is absent raises `ConfigurationError`; nothing else about the
entry — in particular not the value of `type` — is inspected. -/
def validateDevice (d : RawDevice) : Except String Unit :=
  match ["name", "location", "type", "device_id"].find?
      (fun f => ! d.hasField f) with
  | some f => .error ("Device missing required field: " ++ f)
  | none => .ok ()

def validateDeviceList : List RawDevice → Except String Unit
  | [] => .ok ()
  | d :: rest =>
    match validateDevice d with
    | .ok _ => validateDeviceList rest
    | .error e => .error e

/-- Embeds the `devices` part of `Configuration._validate_config`: an
empty roster is a `ConfigurationError`, then each entry is checked for
the four required fields. -/
def validateDevicesSection (devices : List RawDevice) : Except String Unit :=
  if devices.isEmpty then .error "No devices configured"
  else validateDeviceList devices

/-- Embeds the `Configuration.devices` property: build a `DeviceConfig`
from the raw entry's fields (no `ip_address` yet). -/
def toDeviceConfig (d : RawDevice) : DeviceConfig :=
  { name := d.fieldValue "name"
    location := d.fieldValue "location"
    device_type := d.fieldValue "type"
    device_id := d.fieldValue "device_id"
    ip_address := none }

/-- **C9.**  A roster entry whose `type` is not a recognized device kind
passes roster-load validation (which checks only the presence of the
four required fields), while creating its device instance raises
`ConfigurationError` — and that happens only at discovery-match time,
when the entry is matched by `_match_devices`. -/
theorem unknown_kind_passes_validation_fails_at_match (n l t i ip : String)
    (h1 : pyLower t ≠ "socket") (h2 : pyLower t ≠ "bulb") :
    validateDevicesSection
      [⟨[("name", n), ("location", l), ("type", t), ("device_id", i)]⟩] = .ok () ∧
    createDeviceInstance
      (toDeviceConfig ⟨[("name", n), ("location", l), ("type", t), ("device_id", i)]⟩)
      ip = .error ("Unknown device type: " ++ t) ∧
    matchDevices [⟨ip, i⟩]
      [toDeviceConfig ⟨[("name", n), ("location", l), ("type", t), ("device_id", i)]⟩]
      [] = .error ("Unknown device type: " ++ t) := by
  refine ⟨?_, ?_, ?_⟩
  · simp [validateDevicesSection, validateDeviceList, validateDevice,
      RawDevice.hasField]
  · simp [createDeviceInstance, toDeviceConfig, RawDevice.fieldValue, h1, h2]
  · simp [matchDevices, matchConfig, createDeviceInstance, toDeviceConfig,
      RawDevice.fieldValue, h1, h2]

theorem unknown_kind_passes_validation_fails_at_match_witness :
    (pyLower "fan" ≠ "socket" ∧ pyLower "fan" ≠ "bulb") ∧
    (validateDevicesSection
      [⟨[("name", "Light"), ("location", "Lounge"), ("type", "fan"),
         ("device_id", "ID1")]⟩] = .ok () ∧
     createDeviceInstance
       (toDeviceConfig ⟨[("name", "Light"), ("location", "Lounge"),
          ("type", "fan"), ("device_id", "ID1")]⟩) "10.0.0.9"
       = .error ("Unknown device type: " ++ "fan") ∧
     matchDevices [⟨"10.0.0.9", "ID1"⟩]
       [toDeviceConfig ⟨[("name", "Light"), ("location", "Lounge"),
          ("type", "fan"), ("device_id", "ID1")]⟩]
       [] = .error ("Unknown device type: " ++ "fan")) :=
  ⟨⟨by decide, by decide⟩,
   unknown_kind_passes_validation_fails_at_match "Light" "Lounge" "fan" "ID1"
     "10.0.0.9" (by decide) (by decide)⟩

theorem matchConfig_nameId (dev_id ip : String) :
    ∀ configs : List DeviceConfig,
      (matchConfig configs dev_id ip).1.map (fun c => (c.name, c.device_id)) =
        configs.map (fun c => (c.name, c.device_id)) := by
  intro configs
  induction configs with
  | nil => rfl
  | cons c rest ih =>
    by_cases hc : c.device_id = dev_id
    · simp [matchConfig, hc]
    · simp [matchConfig, hc, ih]

theorem matchConfig_mem_of_mem (dev_id ip : String) :
    ∀ (configs : List DeviceConfig) (c : DeviceConfig),
      c ∈ (matchConfig configs dev_id ip).1 →
      ∃ c0 ∈ configs, c0.name = c.name ∧ c0.device_id = c.device_id := by
  intro configs c hc
  have h := matchConfig_nameId dev_id ip configs
  have hmem : (c.name, c.device_id) ∈
      configs.map (fun c => (c.name, c.device_id)) := by
    rw [← h]
    exact List.mem_map_of_mem _ hc
  obtain ⟨c0, hc0, heq⟩ := List.mem_map.mp hmem
  exact ⟨c0, hc0, congrArg Prod.fst heq, congrArg Prod.snd heq⟩

theorem matchConfig_unmatched_preserved (dev_id ip : String) :
    ∀ (configs : List DeviceConfig) (c : DeviceConfig),
      c ∈ configs → c.device_id ≠ dev_id →
      c ∈ (matchConfig configs dev_id ip).1 := by
  intro configs
  induction configs with
  | nil => intro c hc; cases hc
  | cons c0 rest ih =>
    intro c hc hne
    by_cases h0 : c0.device_id = dev_id
    · rcases List.mem_cons.mp hc with hceq | hmem
      · subst hceq
        exact absurd h0 hne
      · simp only [matchConfig, if_pos h0]
        exact List.mem_cons_of_mem _ hmem
    · rcases List.mem_cons.mp hc with hceq | hmem
      · subst hceq
        simp [matchConfig, h0]
      · simp [matchConfig, h0]
        exact Or.inr (ih c hmem hne)

theorem matchConfig_matched (dev_id ip : String) :
    ∀ (configs : List DeviceConfig) (c1 : DeviceConfig),
      (matchConfig configs dev_id ip).2 = some c1 →
      c1.device_id = dev_id ∧ c1.ip_address = some ip ∧
      ∃ c0 ∈ configs, c0.name = c1.name ∧ c0.device_id = c1.device_id := by
  intro configs
  induction configs with
  | nil => intro c1 h; cases h
  | cons c0 rest ih =>
    intro c1 h
    by_cases h0 : c0.device_id = dev_id
    · simp only [matchConfig, if_pos h0, Option.some.injEq] at h
      subst h
      exact ⟨h0, rfl, c0, List.mem_cons_self c0 rest, rfl, rfl⟩
    · simp only [matchConfig, if_neg h0] at h
      obtain ⟨hid, hip, c2, hc2, hn, hi⟩ := ih c1 h
      exact ⟨hid, hip, c2, List.mem_cons_of_mem _ hc2, hn, hi⟩

theorem dictInsert_keys (m : List (String × SmartDevice)) (k : String)
    (v : SmartDevice) :
    (dictInsert m k v).map Prod.fst =
      if m.any (fun p => p.1 = k) then m.map Prod.fst
      else m.map Prod.fst ++ [k] := by
  by_cases h : m.any (fun p => p.1 = k)
  · simp only [dictInsert, if_pos h, List.map_map]
    apply List.map_congr_left
    intro p _
    by_cases hp : p.1 = k
    · simp [hp]
    · simp [hp]
  · simp [dictInsert, if_neg h]

theorem dictInsert_keys_nodup (m : List (String × SmartDevice)) (k : String)
    (v : SmartDevice) (h : (m.map Prod.fst).Nodup) :
    ((dictInsert m k v).map Prod.fst).Nodup := by
  rw [dictInsert_keys]
  by_cases ha : m.any (fun p => p.1 = k)
  · rw [if_pos ha]; exact h
  · rw [if_neg ha]
    have hk : k ∉ m.map Prod.fst := by
      intro hk
      obtain ⟨p, hp, hpk⟩ := List.mem_map.mp hk
      exact ha (List.any_eq_true.mpr ⟨p, hp, by simp [hpk]⟩)
    simp [List.nodup_append, h, hk]

theorem matchDevices_missing_preserved (discovered : List Discovered) :
    ∀ (configs : List DeviceConfig) (devs : List (String × SmartDevice))
      (configs' : List DeviceConfig) (devs' : List (String × SmartDevice))
      (c : DeviceConfig),
      matchDevices discovered configs devs = .ok (configs', devs') →
      c ∈ configs → (∀ d ∈ discovered, c.device_id ≠ d.device_id) →
      c ∈ configs' := by
  induction discovered with
  | nil =>
    intro configs devs configs' devs' c hok hc _
    simp only [matchDevices, Except.ok.injEq, Prod.mk.injEq] at hok
    exact hok.1 ▸ hc
  | cons d rest ih =>
    intro configs devs configs' devs' c hok hc hni
    simp only [matchDevices] at hok
    have hcne : c.device_id ≠ d.device_id := hni d (List.mem_cons_self _ _)
    have hc1 : c ∈ (matchConfig configs d.device_id d.ip).1 :=
      matchConfig_unmatched_preserved d.device_id d.ip configs c hc hcne
    have hni' : ∀ d' ∈ rest, c.device_id ≠ d'.device_id :=
      fun d' hd' => hni d' (List.mem_cons_of_mem _ hd')
    cases hr : (matchConfig configs d.device_id d.ip).2 with
    | none =>
      rw [hr] at hok
      exact ih _ _ _ _ c hok hc1 hni'
    | some c1 =>
      rw [hr] at hok
      dsimp only at hok
      cases hci : createDeviceInstance c1 d.ip with
      | ok dev =>
        rw [hci] at hok
        exact ih _ _ _ _ c hok hc1 hni'
      | error e =>
        rw [hci] at hok
        cases hok

theorem matchDevices_key_provenance (discovered : List Discovered) :
    ∀ (configs : List DeviceConfig) (devs : List (String × SmartDevice))
      (configs' : List DeviceConfig) (devs' : List (String × SmartDevice))
      (name : String),
      matchDevices discovered configs devs = .ok (configs', devs') →
      name ∈ devs'.map Prod.fst →
      name ∈ devs.map Prod.fst ∨
        ∃ c ∈ configs, c.name = name ∧ ∃ d ∈ discovered, c.device_id = d.device_id := by
  induction discovered with
  | nil =>
    intro configs devs configs' devs' name hok hname
    simp only [matchDevices, Except.ok.injEq, Prod.mk.injEq] at hok
    exact Or.inl (hok.2 ▸ hname)
  | cons d rest ih =>
    intro configs devs configs' devs' name hok hname
    simp only [matchDevices] at hok
    cases hr : (matchConfig configs d.device_id d.ip).2 with
    | none =>
      rw [hr] at hok
      rcases ih _ _ _ _ name hok hname with h | ⟨c, hcmem, hcn, d', hd', hcd⟩
      · exact Or.inl h
      · obtain ⟨c0, hc0, hc0n, hc0d⟩ :=
          matchConfig_mem_of_mem d.device_id d.ip configs c hcmem
        exact Or.inr ⟨c0, hc0, hc0n.trans hcn, d',
          List.mem_cons_of_mem _ hd', hc0d.trans hcd⟩
    | some c1 =>
      rw [hr] at hok
      dsimp only at hok
      cases hci : createDeviceInstance c1 d.ip with
      | error e =>
        rw [hci] at hok
        cases hok
      | ok dev =>
        rw [hci] at hok
        rcases ih _ _ _ _ name hok hname with h | ⟨c, hcmem, hcn, d', hd', hcd⟩
        · rw [dictInsert_keys] at h
          by_cases ha : devs.any (fun p => p.1 = c1.name)
          · rw [if_pos ha] at h
            exact Or.inl h
          · rw [if_neg ha] at h
            rcases List.mem_append.mp h with h | h
            · exact Or.inl h
            · have hnc1 : name = c1.name := by simpa using h
              obtain ⟨hid, _, c0, hc0, hc0n, hc0d⟩ :=
                matchConfig_matched d.device_id d.ip configs c1 hr
              exact Or.inr ⟨c0, hc0, hc0n.trans hnc1.symm, d,
                List.mem_cons_self _ _, hc0d.trans hid⟩
        · obtain ⟨c0, hc0, hc0n, hc0d⟩ :=
            matchConfig_mem_of_mem d.device_id d.ip configs c hcmem
          exact Or.inr ⟨c0, hc0, hc0n.trans hcn, d',
            List.mem_cons_of_mem _ hd', hc0d.trans hcd⟩

theorem matchDevices_keys_nodup (discovered : List Discovered) :
    ∀ (configs : List DeviceConfig) (devs : List (String × SmartDevice))
      (configs' : List DeviceConfig) (devs' : List (String × SmartDevice)),
      matchDevices discovered configs devs = .ok (configs', devs') →
      (devs.map Prod.fst).Nodup → (devs'.map Prod.fst).Nodup := by
  induction discovered with
  | nil =>
    intro configs devs configs' devs' hok hnd
    simp only [matchDevices, Except.ok.injEq, Prod.mk.injEq] at hok
    exact hok.2 ▸ hnd
  | cons d rest ih =>
    intro configs devs configs' devs' hok hnd
    simp only [matchDevices] at hok
    cases hr : (matchConfig configs d.device_id d.ip).2 with
    | none =>
      rw [hr] at hok
      exact ih _ _ _ _ hok hnd
    | some c1 =>
      rw [hr] at hok
      dsimp only at hok
      cases hci : createDeviceInstance c1 d.ip with
      | error e =>
        rw [hci] at hok
        cases hok
      | ok dev =>
        rw [hci] at hok
        exact ih _ _ _ _ hok (dictInsert_keys_nodup devs c1.name dev hnd)

/-- Outcome of the discovery part of `RecordingLightController.run`:
either no device was matched (the controller logs an error and returns
before opening the MIDI port) or it proceeds to MIDI monitoring with the
matched devices. -/
inductive RunPhase where
  | noDevices
  | monitoring (configs : List DeviceConfig) (devices : List (String × SmartDevice))
deriving Repr, DecidableEq

/-- Embeds the startup sequence of `RecordingLightController.run` up to
the decision to enter the MIDI monitoring loop: discover and match
devices (a `ConfigurationError` propagates), report missing entries,
return early when no devices matched, otherwise start monitoring. -/
def runDiscoveryPhase (configs : List DeviceConfig)
    (discovered : List Discovered) : Except String RunPhase :=
  match matchDevices discovered configs [] with
  | .error e => .error e
  | .ok (configs1, devs) =>
    if devs.isEmpty then .ok RunPhase.noDevices
    else .ok (RunPhase.monitoring configs1 devs)

/-- **C8.**  A roster entry that never gets a resolved address is
non-fatal: it appears in the one-time discovery report of missing
devices, its name is absent from the matched-device mapping, so it is
excluded from every fan-out dispatch and produces no per-device log or
error, while every matched device still receives its command and, as
long as at least one device matched, the controller still proceeds to
the MIDI monitoring loop. -/
theorem unresolved_entry_isolated (discovered : List Discovered)
    (configs configs' : List DeviceConfig) (devs : List (String × SmartDevice))
    (e : DeviceConfig) (behavior : RemoteBehavior) (turn_on : Bool)
    (hok : matchDevices discovered configs [] = .ok (configs', devs))
    (he : e ∈ configs) (hip : e.ip_address = none)
    (hid : ∀ d ∈ discovered, e.device_id ≠ d.device_id)
    (huniq : ∀ c ∈ configs, c.name = e.name → c = e) :
    e.name ∈ missingDeviceNames configs' ∧
    e.name ∉ devs.map Prod.fst ∧
    (∀ l ∈ (controlAllDevices behavior devs turn_on).2, l.deviceName ≠ e.name) ∧
    (controlAllDevices behavior devs turn_on).1 =
      devs.map (fun p => ⟨p.2.ip, turn_on⟩) ∧
    (devs ≠ [] →
      runDiscoveryPhase configs discovered = .ok (RunPhase.monitoring configs' devs)) := by
  have hkeys : e.name ∉ devs.map Prod.fst := by
    intro hmem
    rcases matchDevices_key_provenance discovered configs [] configs' devs e.name
        hok hmem with h | ⟨c, hcmem, hcn, d, hd, hcd⟩
    · simp at h
    · have hce : c = e := huniq c hcmem hcn
      exact hid d hd (hce ▸ hcd)
  refine ⟨?_, hkeys, ?_, ?_, ?_⟩
  · have he' : e ∈ configs' :=
      matchDevices_missing_preserved discovered configs [] configs' devs e hok he hid
    exact List.mem_map_of_mem _ (List.mem_filter.mpr ⟨he', by simp [hip]⟩)
  · intro l hl
    simp only [controlAllDevices, List.map_map, List.mem_map] at hl
    obtain ⟨p, hp, hlp⟩ := hl
    intro hname
    apply hkeys
    have : l.deviceName = p.1 := by
      rw [← hlp]
      simp only [Function.comp]
      cases hb : behavior p.2.ip turn_on <;>
        simp [controlSingleDevice, hb, LogEntry.deviceName]
    rw [← hname, this]
    exact List.mem_map_of_mem _ hp
  · simp [controlAllDevices, controlSingleDevice]
  · intro hne
    simp only [runDiscoveryPhase, hok]
    simp [List.isEmpty_iff, hne]

def rosterEntryA : DeviceConfig :=
  { name := "Light A"
    location := "Room A"
    device_type := "socket"
    device_id := "A1"
    ip_address := none }

def rosterEntryB : DeviceConfig :=
  { name := "Light B"
    location := "Room B"
    device_type := "socket"
    device_id := "B2"
    ip_address := none }

def discoveredSample : List Discovered := [⟨"10.0.0.1", "A1"⟩]

theorem unresolved_entry_isolated_witness :
    (matchDevices discoveredSample [rosterEntryA, rosterEntryB] [] =
      .ok ([{ rosterEntryA with ip_address := some "10.0.0.1" }, rosterEntryB],
           [("Light A", ⟨"10.0.0.1", DeviceKind.plug⟩)]) ∧
     rosterEntryB ∈ [rosterEntryA, rosterEntryB] ∧
     rosterEntryB.ip_address = none ∧
     (∀ d ∈ discoveredSample, rosterEntryB.device_id ≠ d.device_id) ∧
     (∀ c ∈ [rosterEntryA, rosterEntryB], c.name = rosterEntryB.name →
       c = rosterEntryB)) ∧
    (rosterEntryB.name ∈ missingDeviceNames
      [{ rosterEntryA with ip_address := some "10.0.0.1" }, rosterEntryB] ∧
     rosterEntryB.name ∉
       ([("Light A", (⟨"10.0.0.1", DeviceKind.plug⟩ : SmartDevice))].map Prod.fst) ∧
     (∀ l ∈ (controlAllDevices sampleBehavior
         [("Light A", ⟨"10.0.0.1", DeviceKind.plug⟩)] true).2,
       l.deviceName ≠ rosterEntryB.name) ∧
     (controlAllDevices sampleBehavior
        [("Light A", ⟨"10.0.0.1", DeviceKind.plug⟩)] true).1 =
       [("Light A", (⟨"10.0.0.1", DeviceKind.plug⟩ : SmartDevice))].map
         (fun p => ⟨p.2.ip, true⟩) ∧
     ([("Light A", (⟨"10.0.0.1", DeviceKind.plug⟩ : SmartDevice))] ≠
        ([] : List (String × SmartDevice)) →
      runDiscoveryPhase [rosterEntryA, rosterEntryB] discoveredSample =
        .ok (RunPhase.monitoring
          [{ rosterEntryA with ip_address := some "10.0.0.1" }, rosterEntryB]
          [("Light A", ⟨"10.0.0.1", DeviceKind.plug⟩)]))) :=
  ⟨⟨rfl, by decide, by decide, by decide, by decide⟩,
   unresolved_entry_isolated discoveredSample [rosterEntryA, rosterEntryB]
     [{ rosterEntryA with ip_address := some "10.0.0.1" }, rosterEntryB]
     [("Light A", ⟨"10.0.0.1", DeviceKind.plug⟩)]
     rosterEntryB sampleBehavior true
     rfl (by decide) (by decide) (by decide) (by decide)⟩

theorem find_overwrite (k : String) (v : SmartDevice) :
    ∀ m : List (String × SmartDevice), m.any (fun p => p.1 = k) = true →
      (m.map (fun p => if p.1 = k then (k, v) else p)).find?
        (fun p => p.1 = k) = some (k, v) := by
  intro m
  induction m with
  | nil => intro h; cases h
  | cons p rest ih =>
    intro h
    by_cases hp : p.1 = k
    · simp [hp]
    · have hrest : rest.any (fun p => p.1 = k) = true := by
        simp only [List.any_cons, Bool.or_eq_true] at h
        rcases h with h | h
        · exact absurd (by simpa using h) hp
        · exact h
      simp [hp, ih hrest]

theorem find_append_new (k : String) (v : SmartDevice) :
    ∀ m : List (String × SmartDevice), m.any (fun p => p.1 = k) = false →
      (m ++ [(k, v)]).find? (fun p => p.1 = k) = some (k, v) := by
  intro m
  induction m with
  | nil => intro _; simp
  | cons p rest ih =>
    intro h
    simp only [List.any_cons, Bool.or_eq_false_iff] at h
    have hp : ¬ p.1 = k := by simpa using h.1
    simp [hp, ih h.2]

theorem dictFind_insert (m : List (String × SmartDevice)) (k : String)
    (v : SmartDevice) : dictFind (dictInsert m k v) k = some v := by
  by_cases h : m.any (fun p => p.1 = k)
  · simp only [dictFind, dictInsert, if_pos h, find_overwrite k v m h]
    rfl
  · simp only [dictFind, dictInsert, if_neg h,
      find_append_new k v m (Bool.eq_false_iff.mpr h)]
    rfl

theorem matchDevices_append (xs ys : List Discovered) :
    ∀ (configs : List DeviceConfig) (devs : List (String × SmartDevice)),
      matchDevices (xs ++ ys) configs devs =
        match matchDevices xs configs devs with
        | .ok r => matchDevices ys r.1 r.2
        | .error e => .error e := by
  induction xs with
  | nil => intro configs devs; rfl
  | cons d rest ih =>
    intro configs devs
    simp only [List.cons_append, matchDevices]
    cases hr : (matchConfig configs d.device_id d.ip).2 with
    | none =>
      dsimp only
      exact ih _ _
    | some c1 =>
      dsimp only
      cases hci : createDeviceInstance c1 d.ip with
      | ok dev =>
        dsimp only
        exact ih _ _
      | error e => rfl

/-- **C10.**  `self.devices` is a mapping keyed by the entry's name:
when the last discovered device matches a roster entry whose name is
already bound, the newly created instance overwrites the old binding, so
the retained device is the most recently matched one, the stored names
are pairwise distinct, and fan-out issues exactly one command per stored
name rather than one per resolved roster entry. -/
theorem duplicate_name_last_match_retained (front : List Discovered)
    (d : Discovered) (configs configs1 configs2 : List DeviceConfig)
    (devs1 : List (String × SmartDevice)) (c1 : DeviceConfig) (dev : SmartDevice)
    (behavior : RemoteBehavior) (turn_on : Bool)
    (hfront : matchDevices front configs [] = .ok (configs1, devs1))
    (hmc : matchConfig configs1 d.device_id d.ip = (configs2, some c1))
    (hinst : createDeviceInstance c1 d.ip = .ok dev) :
    matchDevices (front ++ [d]) configs [] =
      .ok (configs2, dictInsert devs1 c1.name dev) ∧
    dictFind (dictInsert devs1 c1.name dev) c1.name = some dev ∧
    ((dictInsert devs1 c1.name dev).map Prod.fst).Nodup ∧
    (controlAllDevices behavior (dictInsert devs1 c1.name dev) turn_on).1 =
      (dictInsert devs1 c1.name dev).map (fun p => ⟨p.2.ip, turn_on⟩) := by
  refine ⟨?_, dictFind_insert devs1 c1.name dev, ?_, ?_⟩
  · rw [matchDevices_append front [d] configs []]
    rw [hfront]
    simp only [matchDevices]
    rw [show (matchConfig configs1 d.device_id d.ip).2 = some c1 from by
      rw [hmc]]
    dsimp only
    rw [hinst]
    dsimp only
    rw [show (matchConfig configs1 d.device_id d.ip).1 = configs2 from by
      rw [hmc]]
  · exact dictInsert_keys_nodup devs1 c1.name dev
      (matchDevices_keys_nodup front configs [] configs1 devs1 hfront (by simp))
  · simp [controlAllDevices, controlSingleDevice]

def dupNameEntry1 : DeviceConfig :=
  { name := "Studio"
    location := "Room 1"
    device_type := "socket"
    device_id := "X1"
    ip_address := none }

def dupNameEntry2 : DeviceConfig :=
  { name := "Studio"
    location := "Room 2"
    device_type := "socket"
    device_id := "X2"
    ip_address := none }

theorem duplicate_name_last_match_retained_witness :
    (matchDevices [⟨"10.0.1.1", "X1"⟩] [dupNameEntry1, dupNameEntry2] [] =
      .ok ([{ dupNameEntry1 with ip_address := some "10.0.1.1" }, dupNameEntry2],
           [("Studio", ⟨"10.0.1.1", DeviceKind.plug⟩)]) ∧
     matchConfig [{ dupNameEntry1 with ip_address := some "10.0.1.1" },
         dupNameEntry2] "X2" "10.0.1.2" =
       ([{ dupNameEntry1 with ip_address := some "10.0.1.1" },
         { dupNameEntry2 with ip_address := some "10.0.1.2" }],
        some { dupNameEntry2 with ip_address := some "10.0.1.2" }) ∧
     createDeviceInstance { dupNameEntry2 with ip_address := some "10.0.1.2" }
       "10.0.1.2" = .ok ⟨"10.0.1.2", DeviceKind.plug⟩) ∧
    (matchDevices ([⟨"10.0.1.1", "X1"⟩] ++ [⟨"10.0.1.2", "X2"⟩])
        [dupNameEntry1, dupNameEntry2] [] =
      .ok ([{ dupNameEntry1 with ip_address := some "10.0.1.1" },
            { dupNameEntry2 with ip_address := some "10.0.1.2" }],
           dictInsert [("Studio", ⟨"10.0.1.1", DeviceKind.plug⟩)] "Studio"
             ⟨"10.0.1.2", DeviceKind.plug⟩) ∧
     dictFind (dictInsert [("Studio", ⟨"10.0.1.1", DeviceKind.plug⟩)] "Studio"
         ⟨"10.0.1.2", DeviceKind.plug⟩) "Studio" =
       some ⟨"10.0.1.2", DeviceKind.plug⟩ ∧
     ((dictInsert [("Studio", ⟨"10.0.1.1", DeviceKind.plug⟩)] "Studio"
         ⟨"10.0.1.2", DeviceKind.plug⟩).map Prod.fst).Nodup ∧
     (controlAllDevices sampleBehavior
        (dictInsert [("Studio", ⟨"10.0.1.1", DeviceKind.plug⟩)] "Studio"
          ⟨"10.0.1.2", DeviceKind.plug⟩) true).1 =
       (dictInsert [("Studio", ⟨"10.0.1.1", DeviceKind.plug⟩)] "Studio"
          ⟨"10.0.1.2", DeviceKind.plug⟩).map (fun p => ⟨p.2.ip, true⟩)) ∧
    dictInsert [("Studio", ⟨"10.0.1.1", DeviceKind.plug⟩)] "Studio"
        ⟨"10.0.1.2", DeviceKind.plug⟩ =
      [("Studio", ⟨"10.0.1.2", DeviceKind.plug⟩)] :=
  ⟨⟨rfl, rfl, rfl⟩,
   duplicate_name_last_match_retained [⟨"10.0.1.1", "X1"⟩] ⟨"10.0.1.2", "X2"⟩
     [dupNameEntry1, dupNameEntry2]
     [{ dupNameEntry1 with ip_address := some "10.0.1.1" }, dupNameEntry2]
     [{ dupNameEntry1 with ip_address := some "10.0.1.1" },
      { dupNameEntry2 with ip_address := some "10.0.1.2" }]
     [("Studio", ⟨"10.0.1.1", DeviceKind.plug⟩)]
     { dupNameEntry2 with ip_address := some "10.0.1.2" }
     ⟨"10.0.1.2", DeviceKind.plug⟩ sampleBehavior true rfl rfl rfl,
   by decide⟩

/-- One attempt of `self.midi_in.get_message()` as seen by the loop:
either a message arrived, no message was available on this pass (the
loop sleeps 5 ms and polls again), or the read raised an exception. -/
inductive ReadOutcome where
  | message (m : List Nat)
  | noMessage
  | failure (e : String)
deriving Repr, DecidableEq

/-- Embeds `MidiHandler.monitor_midi` over a finite prefix of read
outcomes: each message is processed with `_process_midi_message`, an
empty read leaves the state untouched and the loop polls again after its
small sleep, and an exception escapes the `while` loop, is logged, and
re-raised (`raise` in the `except` block), terminating the loop.
Returns the final handler state and all scheduler submissions made. -/
def monitorMidi (cfg : MidiConfig) (s : MidiState) :
    List ReadOutcome → Except String (MidiState × List Bool)
  | [] => .ok (s, [])
  | ReadOutcome.failure e :: _ => .error e
  | ReadOutcome.message m :: rest =>
    let r1 := processMidiMessage cfg s m
    match monitorMidi cfg r1.1 rest with
    | .ok r2 => .ok (r2.1, r1.2 ++ r2.2)
    | .error e => .error e
  | ReadOutcome.noMessage :: rest => monitorMidi cfg s rest

/-- **C6 counterexample.**  A failure to read the next event is not
retried: at the concrete input where the first read raises and a
qualifying play message follows, `monitor_midi` re-raises the error and
the loop terminates without ever processing the later message, whereas
the claim requires the loop to pause, retry and keep running. -/
theorem read_failure_terminates_loop_counterexample :
    monitorMidi sampleConfig initialMidiState
      [ReadOutcome.failure "MIDI read failed",
       ReadOutcome.message [176, 117, 127]] = .error "MIDI read failed" := rfl

/-- **C6 (amended).**  An empty read (no event available) is retried on
the next pass of the loop with the state unchanged; but a failure while
reading the next event is logged and re-raised, terminating the
event-monitoring loop — whatever error-free prefix precedes it, the
monitor aborts with that error and no later outcome is processed. -/
theorem read_failure_propagates (cfg : MidiConfig) (pre : List ReadOutcome)
    (e : String) (rest : List ReadOutcome)
    (hpre : ∀ o ∈ pre, ∀ err, o ≠ ReadOutcome.failure err) :
    ∀ s : MidiState,
      monitorMidi cfg s (pre ++ ReadOutcome.failure e :: rest) = .error e ∧
      (∀ tail, monitorMidi cfg s (ReadOutcome.noMessage :: tail) =
        monitorMidi cfg s tail) := by
  induction pre with
  | nil => intro s; exact ⟨rfl, fun tail => rfl⟩
  | cons o pre' ih =>
    intro s
    refine ⟨?_, fun tail => rfl⟩
    have hpre' : ∀ o ∈ pre', ∀ err, o ≠ ReadOutcome.failure err :=
      fun o ho err => hpre o (List.mem_cons_of_mem _ ho) err
    cases o with
    | failure err => exact absurd rfl (hpre _ (List.mem_cons_self _ _) err)
    | noMessage =>
      simp only [List.cons_append, monitorMidi]
      exact (ih hpre' s).1
    | message m =>
      simp only [List.cons_append, monitorMidi, List.append_eq]
      rw [(ih hpre' (processMidiMessage cfg s m).1).1]

theorem read_failure_propagates_witness :
    (∀ o ∈ [ReadOutcome.message [176, 117, 127]], ∀ err : String,
       o ≠ ReadOutcome.failure err) ∧
    (monitorMidi sampleConfig initialMidiState
       ([ReadOutcome.message [176, 117, 127]] ++
         ReadOutcome.failure "disconnected" ::
           [ReadOutcome.message [176, 118, 127]]) = .error "disconnected" ∧
     (∀ tail, monitorMidi sampleConfig initialMidiState
         (ReadOutcome.noMessage :: tail) =
       monitorMidi sampleConfig initialMidiState tail)) :=
  ⟨fun o ho err => by
      simp only [List.mem_singleton] at ho
      subst ho
      exact fun h => ReadOutcome.noConfusion h,
   read_failure_propagates sampleConfig [ReadOutcome.message [176, 117, 127]]
     "disconnected" [ReadOutcome.message [176, 118, 127]]
     (fun o ho err => by
       simp only [List.mem_singleton] at ho
       subst ho
       exact fun h => ReadOutcome.noConfusion h)
     initialMidiState⟩
